import Mathlib

/-!
Verification development for a consumer-side relay gateway
(provider pairing, session ledger, canonical envelope builder).

Bytes are modelled as `Nat` values below 256, byte strings as `List Nat`,
Rust `u64`/`i64` as `Nat`/`Int` with explicit reductions modulo `2^64`
where wrap-around matters.
-/

/-! ## utils.rs -/

def LAVA_CHAIN_ID : String := "lava-testnet-2"

def SPEC_ID : String := "ETH1"

def JSONRPC_INTERFACE : String := "jsonrpc"

/-- `encode_uint64` from utils.rs: 8-byte little-endian encoding of a `u64`. -/
def encode_uint64 (value : Nat) : List Nat :=
  [value % 256, value / 256 % 256, value / 256 ^ 2 % 256, value / 256 ^ 3 % 256,
   value / 256 ^ 4 % 256, value / 256 ^ 5 % 256, value / 256 ^ 6 % 256, value / 256 ^ 7 % 256]

/-- Octal digit character for a value below 8. -/
def octChar (n : Nat) : Char := Char.ofNat (48 + n)

/-- Rust `format!` with the `{:03o}` spec: octal digits, zero-padded on the
left to width 3 (more digits are kept when the value needs them). -/
def formatOctal03 (n : Nat) : String :=
  let ds := Nat.toDigits 8 n
  let pad := List.replicate (3 - ds.length) '0'
  String.mk (pad ++ ds)

/-- `byte_array_to_string` from utils.rs: per-byte escaping of a byte slice.
Match arms are checked in source order. -/
def byte_array_to_string (array : List Nat) (replace_double_quotes : Bool) : String :=
  String.join (array.map (fun byte =>
    if byte = 0x09 then "\\t"
    else if byte = 0x0a then "\\n"
    else if byte = 0x0d then "\\r"
    else if byte = 0x5c then "\\\\"
    else if byte = 0x22 ∧ replace_double_quotes then "\\\""
    else if 0x20 ≤ byte ∧ byte ≤ 0x7e then String.singleton (Char.ofNat byte)
    else "\\" ++ formatOctal03 byte))

/-! ## SHA-256 (model of the `sha2` crate used by the source) -/

def w32 (n : Nat) : Nat := n % 4294967296

/-- Rotate a 32-bit word right by `n` places (the word is kept below `2^32`). -/
def rotr32 (n x : Nat) : Nat := w32 ((x >>> n) ||| (x <<< (32 - n)))

def shaCh (x y z : Nat) : Nat := (x &&& y) ^^^ ((x ^^^ 4294967295) &&& z)

def shaMaj (x y z : Nat) : Nat := (x &&& y) ^^^ (x &&& z) ^^^ (y &&& z)

def bigSigma0 (x : Nat) : Nat := rotr32 2 x ^^^ rotr32 13 x ^^^ rotr32 22 x

def bigSigma1 (x : Nat) : Nat := rotr32 6 x ^^^ rotr32 11 x ^^^ rotr32 25 x

def smallSigma0 (x : Nat) : Nat := rotr32 7 x ^^^ rotr32 18 x ^^^ (x >>> 3)

def smallSigma1 (x : Nat) : Nat := rotr32 17 x ^^^ rotr32 19 x ^^^ (x >>> 10)

/-- Big-endian 8-byte encoding (used for the padded bit length). -/
def beBytes8 (n : Nat) : List Nat :=
  [n / 256 ^ 7 % 256, n / 256 ^ 6 % 256, n / 256 ^ 5 % 256, n / 256 ^ 4 % 256,
   n / 256 ^ 3 % 256, n / 256 ^ 2 % 256, n / 256 % 256, n % 256]

/-- SHA-256 padding: append 0x80, zeros to 56 mod 64, then the 64-bit
big-endian bit length. -/
def sha256Pad (msg : List Nat) : List Nat :=
  msg ++ [0x80] ++ List.replicate ((119 - msg.length % 64) % 64) 0 ++ beBytes8 (8 * msg.length)

/-- Group a byte list into big-endian 32-bit words. -/
def beWords : List Nat → List Nat
  | a :: b :: c :: d :: rest => (((a * 256 + b) * 256 + c) * 256 + d) :: beWords rest
  | _ => []

/-- Extend the 16-word message schedule, adding `fuel` further words. -/
def scheduleAux (ws : List Nat) : Nat → List Nat
  | 0 => ws
  | n + 1 =>
    let i := ws.length
    let w := w32 (smallSigma1 (ws.getD (i - 2) 0) + ws.getD (i - 7) 0 +
      smallSigma0 (ws.getD (i - 15) 0) + ws.getD (i - 16) 0)
    scheduleAux (ws ++ [w]) n

structure Hash8 where
  a : Nat
  b : Nat
  c : Nat
  d : Nat
  e : Nat
  f : Nat
  g : Nat
  h : Nat
deriving Repr, DecidableEq

def shaK : List Nat :=
  [1116352408, 1899447441, 3049323471, 3921009573, 961987163,
   1508970993, 2453635748, 2870763221, 3624381080, 310598401,
   607225278, 1426881987, 1925078388, 2162078206, 2614888103,
   3248222580, 3835390401, 4022224774, 264347078, 604807628,
   770255983, 1249150122, 1555081692, 1996064986, 2554220882,
   2821834349, 2952996808, 3210313671, 3336571891, 3584528711,
   113926993, 338241895, 666307205, 773529912, 1294757372,
   1396182291, 1695183700, 1986661051, 2177026350, 2456956037,
   2730485921, 2820302411, 3259730800, 3345764771, 3516065817,
   3600352804, 4094571909, 275423344, 430227734, 506948616,
   659060556, 883997877, 958139571, 1322822218, 1537002063,
   1747873779, 1955562222, 2024104815, 2227730452, 2361852424,
   2428436474, 2756734187, 3204031479, 3329325298]

def shaInitH : Hash8 :=
  ⟨1779033703, 3144134277, 1013904242, 2773480762,
   1359893119, 2600822924, 528734635, 1541459225⟩

def compressStep (st : Hash8) (kw : Nat × Nat) : Hash8 :=
  let t1 := w32 (st.h + bigSigma1 st.e + shaCh st.e st.f st.g + kw.1 + kw.2)
  let t2 := w32 (bigSigma0 st.a + shaMaj st.a st.b st.c)
  ⟨w32 (t1 + t2), st.a, st.b, st.c, w32 (st.d + t1), st.e, st.f, st.g⟩

/-- Compress one 64-byte block into the running hash state. -/
def sha256Compress (h0 : Hash8) (block : List Nat) : Hash8 :=
  let ws := scheduleAux (beWords block) 48
  let st := List.foldl compressStep h0 (shaK.zip ws)
  ⟨w32 (h0.a + st.a), w32 (h0.b + st.b), w32 (h0.c + st.c), w32 (h0.d + st.d),
   w32 (h0.e + st.e), w32 (h0.f + st.f), w32 (h0.g + st.g), w32 (h0.h + st.h)⟩

/-- Run the compression over `n` successive 64-byte blocks. -/
def sha256Iter : Nat → Hash8 → List Nat → Hash8
  | 0, h0, _ => h0
  | n + 1, h0, bytes => sha256Iter n (sha256Compress h0 (bytes.take 64)) (bytes.drop 64)

/-- Big-endian 4-byte encoding of a 32-bit word. -/
def be4 (x : Nat) : List Nat :=
  [x / 256 ^ 3 % 256, x / 256 ^ 2 % 256, x / 256 % 256, x % 256]

/-- SHA-256 digest of a byte string, as a 32-byte list. -/
def sha256 (msg : List Nat) : List Nat :=
  let padded := sha256Pad msg
  let hf := sha256Iter (padded.length / 64) shaInitH padded
  be4 hf.a ++ be4 hf.b ++ be4 hf.c ++ be4 hf.d ++ be4 hf.e ++ be4 hf.f ++ be4 hf.g ++ be4 hf.h

/-! ## proto message types (shapes of the generated protobuf structs used by the source) -/

/-- Two's-complement reinterpretation of a `u64` value as an `i64` (Rust `as i64`). -/
def i64ofU64 (n : Nat) : Int :=
  if n < 2 ^ 63 then (n : Int) else (n : Int) - 2 ^ 64

/-- Two's-complement reinterpretation of an `i64` value as a `u64` (Rust `as u64`). -/
def i64toU64 (i : Int) : Nat := (i % (2 ^ 64 : Int)).toNat

structure QualityOfServiceReport where
  latency : String
  availability : String
  sync : String
deriving Repr, DecidableEq

structure ReportedProvider where
  address : String
  disconnections : Nat
  errors : Nat
  timestamp_s : Int
deriving Repr, DecidableEq

structure RelaySession where
  spec_id : String
  content_hash : List Nat
  session_id : Nat
  cu_sum : Nat
  provider : String
  relay_num : Nat
  qos_report : Option QualityOfServiceReport
  epoch : Int
  unresponsive_providers : List ReportedProvider
  lava_chain_id : String
  sig : List Nat
  badge : Option Unit
  qos_excellence_report : Option QualityOfServiceReport
deriving Repr, DecidableEq

structure Metadata where
  name : List Nat
  value : List Nat
deriving Repr, DecidableEq

/-- `RelayPrivateData` with string fields modelled by their UTF-8 bytes
(the source only ever reads them through `as_bytes`). -/
structure RelayPrivateData where
  connection_type : List Nat
  api_url : List Nat
  data : List Nat
  request_block : Int
  api_interface : List Nat
  salt : List Nat
  metadata : List Metadata
  addon : List Nat
  extensions : List (List Nat)
  seen_block : Int
deriving Repr, DecidableEq

/-! ## relay_session.rs -/

inductive Value where
  | String (s : String)
  | Number (n : Int)
  | Bytes (b : List Nat)
  | QoSReport (q : QualityOfServiceReport)
  | ReportedProviders (ps : List ReportedProvider)
deriving Repr, DecidableEq

/-- `request_to_vec` from relay_session.rs: the ordered key/value list the
serializer walks.  Optional sub-messages are pushed only when present, the
repeated field only when non-empty. -/
def request_to_vec (request : RelaySession) : List (String × Value) :=
  [("spec_id", Value.String request.spec_id),
   ("content_hash", Value.Bytes request.content_hash),
   ("session_id", Value.Number (i64ofU64 request.session_id)),
   ("cu_sum", Value.Number (i64ofU64 request.cu_sum)),
   ("provider", Value.String request.provider),
   ("relay_num", Value.Number (i64ofU64 request.relay_num))]
  ++ (match request.qos_report with
      | some q => [("qos_report", Value.QoSReport q)]
      | none => [])
  ++ [("epoch", Value.Number request.epoch)]
  ++ (if request.unresponsive_providers.isEmpty then []
      else [("unresponsive_providers", Value.ReportedProviders request.unresponsive_providers)])
  ++ [("lava_chain_id", Value.String request.lava_chain_id)]
  ++ (match request.qos_excellence_report with
      | some q => [("qos_excellence_report", Value.QoSReport q)]
      | none => [])

def serialize_qos_report (qos : QualityOfServiceReport) : String :=
  "latency:\"" ++ qos.latency ++ "\" availability:\"" ++ qos.availability ++
    "\" sync:\"" ++ qos.sync ++ "\""

def serialize_reported_provider (provider : ReportedProvider) : String :=
  "address:\"" ++ provider.address ++ "\" disconnections:" ++ toString provider.disconnections ++
    " errors:" ++ toString provider.errors ++ " timestamp_s:" ++ toString provider.timestamp_s

def serialize_reported_providers (key : String) (providers : List ReportedProvider) : String :=
  String.join (providers.map (fun provider =>
    let inner := serialize_reported_provider provider
    if inner ≠ "" then key ++ ":<" ++ inner ++ "> " else ""))

/-- `serialize_key_value` from relay_session.rs: one `key:value ` segment,
empty when the omission rule applies. -/
def serialize_key_value (key : String) (value : Value) : String :=
  match value with
  | Value.String s => if s = "" then "" else key ++ ":\"" ++ s ++ "\" "
  | Value.Number n => if n = 0 then "" else key ++ ":" ++ toString n ++ " "
  | Value.Bytes b => key ++ ":\"" ++ byte_array_to_string b false ++ "\" "
  | Value.QoSReport qos => key ++ ":<" ++ serialize_qos_report qos ++ "> "
  | Value.ReportedProviders providers => serialize_reported_providers key providers

/-- `serialize_relay_session` (string form; the source returns its UTF-8 bytes). -/
def serializeRelaySessionString (request : RelaySession) : String :=
  String.join ((request_to_vec request).map (fun kv => serialize_key_value kv.1 kv.2))

def utf8Bytes (s : String) : List Nat := s.toUTF8.toList.map (fun b => b.toNat)

def serialize_relay_session (request : RelaySession) : List Nat :=
  utf8Bytes (serializeRelaySessionString request)

/-- `generate_content_hash` from relay_session.rs, translated statement by
statement (metadata loop, the two block encodings, the `msg_parts` appends,
then one SHA-256 pass). -/
def generate_content_hash (data : RelayPrivateData) : List Nat :=
  let metadata_bytes := (data.metadata.map (fun m => m.name ++ m.value)).flatten
  let request_block_bytes := encode_uint64 (i64toU64 data.request_block)
  let seen_block_bytes := encode_uint64 (i64toU64 data.seen_block)
  let msg_parts := metadata_bytes ++ data.extensions.flatten ++ data.addon ++
    data.api_interface ++ data.connection_type ++ data.api_url ++ data.data ++
    request_block_bytes ++ seen_block_bytes ++ data.salt
  sha256 msg_parts


/-! ## Claim-side definitions for serialization order and content hash -/

/-- The fixed field order of the canonical envelope serialization. -/
def fixedFieldOrder : List String :=
  ["spec_id", "content_hash", "session_id", "cu_sum", "provider", "relay_num",
   "qos_report", "epoch", "unresponsive_providers", "lava_chain_id", "qos_excellence_report"]

/-- The non-empty `key:value ` segments the serializer emits, with their keys. -/
def emittedSegments (r : RelaySession) : List (String × String) :=
  ((request_to_vec r).map (fun kv => (kv.1, serialize_key_value kv.1 kv.2))).filter
    (fun kv => kv.2 ≠ "")

/-- The delimiter-free concatenation the spec describes for the content hash. -/
def contentHashInput (p : RelayPrivateData) : List Nat :=
  (p.metadata.map (fun m => m.name ++ m.value)).flatten ++ p.extensions.flatten ++
  p.addon ++ p.api_interface ++ p.connection_type ++ p.api_url ++ p.data ++
  encode_uint64 (i64toU64 p.request_block) ++ encode_uint64 (i64toU64 p.seen_block) ++ p.salt

/-- Little-endian byte decoding, to state that `encode_uint64` really is
little-endian. -/
def fromLEBytes (bs : List Nat) : Nat := bs.foldr (fun b acc => b + 256 * acc) 0

/-- Big-endian byte decoding (the scalar value of a 32-byte key slice). -/
def fromBEBytes (bs : List Nat) : Nat := bs.foldl (fun acc b => acc * 256 + b) 0

/-- The claim-side 3-digit octal rendering of a byte. -/
def octal3 (b : Nat) : String := String.mk [octChar (b / 64), octChar (b / 8 % 8), octChar (b % 8)]

/-! ## crypto.rs -/

/-- Order of the secp256k1 group (the scalar modulus of the k256 crate). -/
def secp256k1Order : Nat :=
  0xfffffffffffffffffffffffffffffffebaaedce6af48a03bbfd25e8cd0364141

/-- Model of `k256::ecdsa::SigningKey::from_slice`: accepts exactly 32 bytes
encoding a nonzero scalar below the group order. -/
def signingKeyFromSlice (bytes : List Nat) : Option (List Nat) :=
  if bytes.length = 32 ∧ 0 < fromBEBytes bytes ∧ fromBEBytes bytes < secp256k1Order
  then some bytes else none

/-- One hex digit, as accepted by the `hex` crate. -/
def hexDigitVal (c : Char) : Option Nat :=
  if '0' ≤ c ∧ c ≤ '9' then some (c.toNat - 48)
  else if 'a' ≤ c ∧ c ≤ 'f' then some (c.toNat - 87)
  else if 'A' ≤ c ∧ c ≤ 'F' then some (c.toNat - 55)
  else none

/-- `hex::decode`: pairs of hex digits; odd length or a bad digit fails. -/
def hexDecode : List Char → Option (List Nat)
  | [] => some []
  | [_] => none
  | c1 :: c2 :: rest => do
      let hi ← hexDigitVal c1
      let lo ← hexDigitVal c2
      let tail ← hexDecode rest
      pure ((16 * hi + lo) :: tail)

/-- Outcome of running a fallible Rust function, distinguishing a returned
`Err` from a panic (an `unwrap` on an error). -/
inductive RustResult (α : Type) where
  | ok (a : α)
  | err
  | panicked
deriving Repr, DecidableEq

/-- `signing_key_from_hex` from crypto.rs: `decode(hex_key).unwrap()` panics
on malformed hex; only the `SigningKey::from_slice` failure is returned as
an error (via `?`). -/
def signing_key_from_hex (hex_key : String) : RustResult (List Nat) :=
  match hexDecode hex_key.data with
  | none => RustResult.panicked
  | some key_bytes =>
    match signingKeyFromSlice key_bytes with
    | some k => RustResult.ok k
    | none => RustResult.err

/-- `sign_data` from crypto.rs.  The recoverable-ECDSA primitive of the k256
crate is a parameter: it takes the key and the SHA-256 digest and returns the
raw (r,s) signature bytes together with the recovery id. -/
def sign_data (ecdsaSign : List Nat → List Nat → List Nat × Nat)
    (data : List Nat) (signing_key : List Nat) : List Nat :=
  let digest := sha256 data
  let srec := ecdsaSign signing_key digest
  (27 + srec.2) :: srec.1

/-! ## session_context.rs -/

structure ProviderSession where
  session_id : Nat
  cu_sum : Nat
  relay_num : Nat
deriving Repr, DecidableEq

/-- `get_or_create_session`: the `HashMap` is modelled as an association
list; `uuid` is the random 128-bit value drawn on creation, truncated to
`u32` exactly as the source does. -/
def get_or_create_session (sessions : List (String × ProviderSession))
    (provider_address : String) (uuid : Nat) :
    ProviderSession × List (String × ProviderSession) :=
  match sessions.lookup provider_address with
  | some s => (s, sessions)
  | none =>
    let s : ProviderSession := ⟨uuid % 2 ^ 32, 0, 1⟩
    (s, (provider_address, s) :: sessions)

/-- `update_session`: adds 10 compute units and one relay to the entry of the
given address (u64 arithmetic), and does nothing when no entry exists. -/
def update_session (sessions : List (String × ProviderSession))
    (provider_address : String) : List (String × ProviderSession) :=
  sessions.map (fun kv =>
    if kv.1 = provider_address then
      (kv.1, { kv.2 with cu_sum := (kv.2.cu_sum + 10) % 2 ^ 64,
                         relay_num := (kv.2.relay_num + 1) % 2 ^ 64 })
    else kv)

/-- `n` successive `update_session` calls for the same address. -/
def updateN (sessions : List (String × ProviderSession)) (provider_address : String) :
    Nat → List (String × ProviderSession)
  | 0 => sessions
  | n + 1 => update_session (updateN sessions provider_address n) provider_address

/-! ## pairing.rs -/

structure Provider where
  address : String
  stake : Nat
  endpoints : List String
  latest_block : Nat
deriving Repr, DecidableEq

/-- A ranked provider: a provider with its measured probe latency (in
nanoseconds).  The lazily-created connection handle carried by the source
struct is connection plumbing and takes no part in the ranking. -/
structure RankedProvider where
  provider : Provider
  latency : Nat
deriving Repr, DecidableEq

/-- The successful probe outcomes, in candidate order: a provider with no
endpoint spawns no probe; a failed probe is dropped.  `probe` is the outcome
oracle of one refresh cycle: latency and success of probing an endpoint. -/
def successfulProbes (probe : Provider → String → Nat × Bool)
    (providers : List Provider) : List RankedProvider :=
  providers.filterMap (fun p =>
    match p.endpoints.head? with
    | none => none
    | some endpoint =>
      let r := probe p endpoint
      if r.2 then some (⟨p, r.1⟩ : RankedProvider) else none)

/-- `probe_and_rank_providers`: keep the successful probes and sort them
ascending by latency (Rust `sort_by` is a stable merge sort). -/
def probe_and_rank_providers (probe : Provider → String → Nat × Bool)
    (providers : List Provider) : List RankedProvider :=
  (successfulProbes probe providers).mergeSort (fun a b => a.latency ≤ b.latency)

structure SDKPairingParams where
  current_epoch : Int
  time_left_to_next_pairing : Nat
  spec_last_updated_block : Nat
  block_of_next_pairing : Nat
  downtime_duration : String
  epoch_duration : String
deriving Repr, DecidableEq

/-- The shared pairing state (`last_updated` models the `Instant` as an
abstract timestamp). -/
structure SDKPairingState where
  params : SDKPairingParams
  providers : List Provider
  ranked_providers : List RankedProvider
  last_updated : Nat
deriving Repr, DecidableEq

/-- The data one successful refresh cycle fetches and publishes. -/
structure RefreshCycle where
  params : SDKPairingParams
  providers : List Provider
  ranked_providers : List RankedProvider
  timestamp : Nat
deriving Repr, DecidableEq

/-- First lock acquisition of `refresh_state`: clamp the retry interval to
1 second, then release the lock before the network fetch. -/
def clampRetry (s : SDKPairingState) : SDKPairingState :=
  { s with params := { s.params with time_left_to_next_pairing := 1 } }

/-- Second lock acquisition of `refresh_state`: replace params, providers,
timestamp and ranking together, under the one held lock. -/
def publishCycle (c : RefreshCycle) (_s : SDKPairingState) : SDKPairingState :=
  ⟨c.params, c.providers, c.ranked_providers, c.timestamp⟩

/-- The atomic (single-lock-acquisition) writes of the refresh scheduler, as
observable by a concurrent reader of the shared state. -/
inductive RefreshAction where
  | clamp
  | publish (c : RefreshCycle)
deriving Repr, DecidableEq

def refreshStep (s : SDKPairingState) (a : RefreshAction) : SDKPairingState :=
  match a with
  | RefreshAction.clamp => clampRetry s
  | RefreshAction.publish c => publishCycle c s

/-- The shared state after an interleaving prefix of refresh writes; a reader
holding the lock observes exactly such a state. -/
def runRefreshTrace (s : SDKPairingState) (tr : List RefreshAction) : SDKPairingState :=
  tr.foldl refreshStep s

/-- The refresh cycles published within a trace. -/
def cyclesOf (tr : List RefreshAction) : List RefreshCycle :=
  tr.filterMap (fun a =>
    match a with
    | RefreshAction.publish c => some c
    | RefreshAction.clamp => none)

def stateOfCycle (c : RefreshCycle) : SDKPairingState :=
  ⟨c.params, c.providers, c.ranked_providers, c.timestamp⟩

/-- The claim as stated: an observed snapshot carries params, providers,
ranking and timestamp all from one same refresh (or is still the initial
state). -/
def snapshotFromSingleRefresh (init s : SDKPairingState) (tr : List RefreshAction) : Prop :=
  s = init ∨ ∃ c ∈ cyclesOf tr, s = stateOfCycle c

/-! ## server.rs -/

structure ConsumerSessionContext where
  sessions : List (String × ProviderSession)
  ranked_providers : List RankedProvider
  private_key : List Nat
deriving Repr, DecidableEq

/-- `get_top_provider` from session_context.rs: consult the context's cached
ranking first; only when the cache is empty fetch the shared ranking, cache
it when non-empty, and fail when it too is empty. -/
def get_top_provider (ctx : ConsumerSessionContext) (st : SDKPairingState) :
    Option RankedProvider × ConsumerSessionContext :=
  if ctx.ranked_providers.isEmpty then
    if st.ranked_providers.isEmpty then (none, ctx)
    else (st.ranked_providers.head?, { ctx with ranked_providers := st.ranked_providers })
  else (ctx.ranked_providers.head?, ctx)

/-- A network contact made while handling one query. -/
inductive NetEvent where
  | getClient (address : String)
  | relay (address : String)
deriving Repr, DecidableEq

def INTERNAL_SERVER_ERROR : Nat := 500

/-- ASCII string literals as byte lists. -/
def asciiBytes (s : String) : List Nat := s.data.map Char.toNat

/-- What one `handle_query` run produced: the HTTP result, the network
contacts made, the signed envelope sent (when one was built), and the
context afterwards. -/
structure DispatchOutcome where
  result : Except Nat (List Nat)
  events : List NetEvent
  sentSession : Option RelaySession
  ctx : ConsumerSessionContext

/-- `handle_query` from server.rs.  Oracles stand for the outside world:
`ecdsaSign` for the k256 signing primitive, `uuid` for the random session id
drawn on a first dispatch, `getClientOk` for connection establishment and
`relayReply` for the provider's answer (`none` = the relay call failed). -/
def handle_query (ecdsaSign : List Nat → List Nat → List Nat × Nat)
    (ctx0 : ConsumerSessionContext) (st : SDKPairingState) (payload : List Nat)
    (uuid : Nat) (getClientOk : Bool) (relayReply : Option (List Nat)) : DispatchOutcome :=
  let epoch := st.params.current_epoch
  match get_top_provider ctx0 st with
  | (none, ctx1) => ⟨Except.error INTERNAL_SERVER_ERROR, [], none, ctx1⟩
  | (some top, ctx1) =>
    let provider_address := top.provider.address
    let soc := get_or_create_session ctx1.sessions provider_address uuid
    let ctx2 := { ctx1 with sessions := update_session soc.2 provider_address }
    if getClientOk = false then
      ⟨Except.error INTERNAL_SERVER_ERROR, [NetEvent.getClient provider_address], none, ctx2⟩
    else
      let relay_data : RelayPrivateData :=
        { connection_type := asciiBytes "POST", api_url := [], data := payload,
          request_block := -1, api_interface := asciiBytes JSONRPC_INTERFACE, salt := [],
          metadata := [], addon := [], extensions := [], seen_block := 0 }
      let content_hash := generate_content_hash relay_data
      let relay_session : RelaySession :=
        { spec_id := SPEC_ID, content_hash := content_hash,
          session_id := soc.1.session_id, cu_sum := soc.1.cu_sum,
          provider := provider_address, relay_num := soc.1.relay_num,
          qos_report := none, epoch := epoch, unresponsive_providers := [],
          lava_chain_id := LAVA_CHAIN_ID, sig := [], badge := none,
          qos_excellence_report := none }
      let serialized := serialize_relay_session relay_session
      let signature := sign_data ecdsaSign serialized ctx2.private_key
      let signed := { relay_session with sig := signature }
      match relayReply with
      | some reply =>
        ⟨Except.ok reply,
         [NetEvent.getClient provider_address, NetEvent.relay provider_address],
         some signed, ctx2⟩
      | none =>
        ⟨Except.error INTERNAL_SERVER_ERROR,
         [NetEvent.getClient provider_address, NetEvent.relay provider_address],
         some signed, ctx2⟩

/-- The consumer context after `n` successfully dispatched queries. -/
def dispatchIter (ecdsaSign : List Nat → List Nat → List Nat × Nat)
    (st : SDKPairingState) (payload : List Nat) (uuid : Nat) (reply : List Nat) :
    Nat → ConsumerSessionContext → ConsumerSessionContext
  | 0, ctx => ctx
  | n + 1, ctx =>
    (handle_query ecdsaSign (dispatchIter ecdsaSign st payload uuid reply n ctx) st payload uuid
      true (some reply)).ctx

/-! ## Concrete fixtures for witnesses and counterexamples -/

def rC1a : RelaySession :=
  { spec_id := "ETH1", content_hash := [1, 2], session_id := 7, cu_sum := 5, provider := "p",
    relay_num := 2, qos_report := none, epoch := 3, unresponsive_providers := [],
    lava_chain_id := "lava", sig := [], badge := none, qos_excellence_report := none }

def rC1b : RelaySession := { rC1a with cu_sum := 0 }

def pC2 : RelayPrivateData :=
  { connection_type := [80, 79, 83, 84], api_url := [], data := [1, 2, 3], request_block := -1,
    api_interface := [106], salt := [9], metadata := [⟨[1], [2]⟩], addon := [],
    extensions := [[4], [5]], seen_block := 0 }

def pA : Provider := ⟨"A", 100, ["ea"], 5⟩

def pB : Provider := ⟨"B", 90, ["eb"], 6⟩

def pC : Provider := ⟨"C", 80, ["ec"], 7⟩

/-- Probe outcomes of the spec example: 50ms failing, 10ms ok, 30ms ok. -/
def probeC7 (p : Provider) (_e : String) : Nat × Bool :=
  if p.address = "A" then (50, false)
  else if p.address = "B" then (10, true)
  else (30, true)

def probeAllFail (_p : Provider) (_e : String) : Nat × Bool := (50, false)

def rpB : RankedProvider := ⟨pB, 10⟩

def rpC : RankedProvider := ⟨pC, 30⟩

/-- A fixed stand-in for the recoverable-ECDSA primitive. -/
def signOracle (_key _digest : List Nat) : List Nat × Nat := ([1, 2], 0)

def paramsC5 : SDKPairingParams := ⟨42, 30, 0, 0, "", ""⟩

/-- Shared pairing state with an empty ranking. -/
def stC5 : SDKPairingState := ⟨paramsC5, [], [], 0⟩

/-- Consumer context whose cached ranking is non-empty. -/
def ctxC5 : ConsumerSessionContext := ⟨[], [rpB], [9]⟩

/-- Consumer context with an empty cached ranking and no sessions. -/
def ctxEmpty : ConsumerSessionContext := ⟨[], [], [9]⟩

def paramsInit : SDKPairingParams := ⟨0, 0, 0, 0, "", ""⟩

def initC9 : SDKPairingState := ⟨paramsInit, [], [], 0⟩

def cycleC9 : RefreshCycle := ⟨⟨7, 5, 1, 2, "d", "e"⟩, [pB], [rpB], 3⟩

/-- One published refresh followed by the clamp of the next refresh attempt. -/
def traceC9 : List RefreshAction := [RefreshAction.publish cycleC9, RefreshAction.clamp]

/-- Shared pairing state with a non-empty ranking (for the dispatch witnesses). -/
def stC10 : SDKPairingState := ⟨paramsC5, [pB], [rpB], 0⟩

/-! ## Helper lemmas -/

theorem sha256_length (m : List Nat) : (sha256 m).length = 32 := by
  simp [sha256, be4]

theorem serialize_reported_provider_ne_empty (provider : ReportedProvider) :
    serialize_reported_provider provider ≠ "" := by
  intro hcon
  have hl := congrArg String.length hcon
  simp [serialize_reported_provider, String.length_append] at hl
  exact absurd hl.1.1.1.1.1.1.1 (by decide)

/-- A descriptor with zero cumulated compute units emits no cu_sum segment. -/
theorem cu_sum_zero_not_emitted (r : RelaySession) (h : r.cu_sum = 0) :
    "cu_sum" ∉ (emittedSegments r).map Prod.fst := by
  rcases hq : r.qos_report <;> rcases he : r.qos_excellence_report <;>
    by_cases hu : r.unresponsive_providers.isEmpty <;>
    simp [emittedSegments, request_to_vec, hq, he, hu, serialize_key_value, h, i64ofU64,
      serialize_reported_providers]

/-- A descriptor with `cu_sum = 5` emits the segment `cu_sum:5 `. -/
theorem cu_sum_five_emitted (r : RelaySession) (h : r.cu_sum = 5) :
    ("cu_sum", "cu_sum:5 ") ∈ emittedSegments r := by
  have hseg : serialize_key_value "cu_sum" (Value.Number (i64ofU64 r.cu_sum)) = "cu_sum:5 " := by
    simp [h, i64ofU64, serialize_key_value]
    rfl
  simp only [emittedSegments]
  refine List.mem_filter.mpr ⟨List.mem_map.mpr
    ⟨("cu_sum", Value.Number (i64ofU64 r.cu_sum)), ?_, by simp [hseg]⟩, by simp [hseg]⟩
  simp [request_to_vec]

/-! ## C1 -/

/-- C1: the serializer emits present fields in the fixed order spec_id,
content_hash, session_id, cu_sum, provider, relay_num, qos_report, epoch,
unresponsive_providers, lava_chain_id, qos_excellence_report; an empty string
field and a zero numeric field contribute no segment (cu_sum = 0 gives no
cu_sum segment while cu_sum = 5 gives the segment cu_sum:5 followed by a
space); an empty unresponsive_providers list contributes no segment; and each
entry of a non-empty repeated field is re-emitted under the same key. -/
theorem C1_field_order_and_omission (r : RelaySession) :
    ((request_to_vec r).map Prod.fst).Sublist fixedFieldOrder
    ∧ (∀ k : String, serialize_key_value k (Value.String "") = "")
    ∧ (∀ k : String, serialize_key_value k (Value.Number 0) = "")
    ∧ (r.cu_sum = 0 → "cu_sum" ∉ (emittedSegments r).map Prod.fst)
    ∧ (r.cu_sum = 5 → ("cu_sum", "cu_sum:5 ") ∈ emittedSegments r)
    ∧ (r.unresponsive_providers = [] →
        "unresponsive_providers" ∉ (request_to_vec r).map Prod.fst)
    ∧ (∀ (k : String) (ps : List ReportedProvider), serialize_reported_providers k ps =
        String.join (ps.map (fun p => k ++ ":<" ++ serialize_reported_provider p ++ "> "))) := by
  refine ⟨?_, ?_, ?_, cu_sum_zero_not_emitted r, cu_sum_five_emitted r, ?_, ?_⟩
  · rcases hq : r.qos_report <;> rcases he : r.qos_excellence_report <;>
      by_cases hu : r.unresponsive_providers.isEmpty <;>
      simp [request_to_vec, hq, he, hu, fixedFieldOrder]
  · intro k; simp [serialize_key_value]
  · intro k; simp [serialize_key_value]
  · intro h
    simp [request_to_vec, h]
    rcases hq : r.qos_report <;> rcases he : r.qos_excellence_report <;> simp
  · intro k ps
    simp only [serialize_reported_providers]
    exact congrArg String.join (List.map_congr_left
      (fun provider _ => if_pos (serialize_reported_provider_ne_empty provider)))

/-- Witness for C1 at concrete descriptors: cu_sum = 5 yields the segment,
cu_sum = 0 and an empty repeated field yield none. -/
theorem C1_witness :
    (("cu_sum", "cu_sum:5 ") ∈ emittedSegments rC1a)
    ∧ ("cu_sum" ∉ (emittedSegments rC1b).map Prod.fst)
    ∧ ("unresponsive_providers" ∉ (request_to_vec rC1a).map Prod.fst) :=
  ⟨(C1_field_order_and_omission rC1a).2.2.2.2.1 rfl,
   (C1_field_order_and_omission rC1b).2.2.2.1 rfl,
   (C1_field_order_and_omission rC1a).2.2.2.2.2.1 rfl⟩

/-! ## C2 -/

/-- C2: the content hash is the SHA-256 digest of the delimiter-free
concatenation, in the fixed spec order, of metadata name/value pairs,
extensions, addon, api_interface, connection_type, api_url, raw request
bytes, the two 8-byte little-endian block encodings, and the salt; the
output is 32 bytes; the function is pure and deterministic. -/
theorem C2_content_hash (p : RelayPrivateData) :
    generate_content_hash p = sha256 (contentHashInput p)
    ∧ (generate_content_hash p).length = 32
    ∧ (∀ v : Nat, (encode_uint64 v).length = 8 ∧ fromLEBytes (encode_uint64 v) = v % 2 ^ 64)
    ∧ (∀ q : RelayPrivateData, p = q → generate_content_hash p = generate_content_hash q) := by
  refine ⟨rfl, sha256_length _, ?_, fun q h => h ▸ rfl⟩
  intro v
  refine ⟨rfl, ?_⟩
  simp [fromLEBytes, encode_uint64]
  omega

/-- Witness for C2 at a concrete private-data record. -/
theorem C2_witness :
    generate_content_hash pC2 = sha256 (contentHashInput pC2)
    ∧ (generate_content_hash pC2).length = 32
    ∧ fromLEBytes (encode_uint64 12345) = 12345 % 2 ^ 64
    ∧ generate_content_hash pC2 = generate_content_hash pC2 :=
  ⟨(C2_content_hash pC2).1, (C2_content_hash pC2).2.1,
   ((C2_content_hash pC2).2.2.1 12345).2, (C2_content_hash pC2).2.2.2 pC2 rfl⟩

/-! ## C3 -/

/-- C3: for any signing key and any data, the signature returned by
`sign_data` is one byte `27 + recoveryId` followed by the raw (r,s) bytes of
the recoverable ECDSA signature computed over SHA-256(data). -/
theorem C3_signature_layout (ecdsaSign : List Nat → List Nat → List Nat × Nat)
    (signing_key data : List Nat) :
    sign_data ecdsaSign data signing_key =
      (27 + (ecdsaSign signing_key (sha256 data)).2) :: (ecdsaSign signing_key (sha256 data)).1
    ∧ (sign_data ecdsaSign data signing_key).head? =
        some (27 + (ecdsaSign signing_key (sha256 data)).2)
    ∧ (sign_data ecdsaSign data signing_key).tail =
        (ecdsaSign signing_key (sha256 data)).1 :=
  ⟨rfl, rfl, rfl⟩

/-! ## C6 -/

/-- C6 (code bug): malformed hex panics (the `unwrap` on `hex::decode`)
instead of producing the error value; only a well-formed hex string of the
wrong shape reaches the error return. -/
theorem C6_malformed_hex_panics :
    signing_key_from_hex "zz" = RustResult.panicked
    ∧ signing_key_from_hex "abc" = RustResult.panicked
    ∧ signing_key_from_hex "zz" ≠ RustResult.err
    ∧ signing_key_from_hex
        "1111111111111111111111111111111111111111111111111111111111111111" =
        RustResult.ok (List.replicate 32 17)
    ∧ signing_key_from_hex "abcd" = RustResult.err := by
  refine ⟨rfl, rfl, by decide, by decide, rfl⟩

/-! ## C4 helpers -/

theorem lookup_update_session (l : List (String × ProviderSession)) (addr : String) :
    (update_session l addr).lookup addr = (l.lookup addr).map
      (fun s => ⟨s.session_id, (s.cu_sum + 10) % 2 ^ 64, (s.relay_num + 1) % 2 ^ 64⟩) := by
  induction l with
  | nil => rfl
  | cons kv rest ih =>
    obtain ⟨k, v⟩ := kv
    by_cases h : k = addr
    · subst h
      simp only [update_session, List.map_cons, if_pos rfl]
      simp [List.lookup_cons]
    · have hne : addr ≠ k := Ne.symm h
      simp only [update_session, List.map_cons, if_neg h]
      rw [List.lookup_cons, List.lookup_cons]
      simp only [beq_false_of_ne hne]
      simpa [update_session] using ih

theorem update_session_of_no_entry (l : List (String × ProviderSession)) (addr : String)
    (h : l.lookup addr = none) : update_session l addr = l := by
  induction l with
  | nil => rfl
  | cons kv rest ih =>
    obtain ⟨k, v⟩ := kv
    rw [List.lookup_cons] at h
    by_cases hk : addr = k
    · subst hk
      simp at h
    · simp only [beq_false_of_ne hk] at h
      simp only [update_session, List.map_cons, if_neg (Ne.symm hk)]
      have hres := ih h
      simp only [update_session] at hres
      rw [hres]

theorem updateN_lookup (l : List (String × ProviderSession)) (addr : String)
    (s : ProviderSession) (hs : l.lookup addr = some s)
    (hc : s.cu_sum < 2 ^ 64) (hr : s.relay_num < 2 ^ 64) (n : Nat) :
    (updateN l addr n).lookup addr =
      some ⟨s.session_id, (s.cu_sum + 10 * n) % 2 ^ 64, (s.relay_num + n) % 2 ^ 64⟩ := by
  obtain ⟨sid, cu, rn⟩ := s
  induction n with
  | zero =>
    simp only [updateN, hs]
    congr 1
    simp only [ProviderSession.mk.injEq] at hc hr ⊢
    refine ⟨trivial, ?_, ?_⟩ <;> omega
  | succ n ih =>
    simp only [updateN]
    rw [lookup_update_session, ih]
    simp only [Option.map_some']
    congr 1
    simp only [ProviderSession.mk.injEq]
    refine ⟨trivial, ?_, ?_⟩ <;> omega

/-! ## C4 -/

/-- C4: the first getOrCreate for an address creates a session with the
truncated fresh id, cu_sum = 0, relay_num = 1 and inserts it; a getOrCreate
on an existing entry returns it unchanged and mutates nothing; after N
updates the entry holds relay_num = 1 + N and cu_sum = 10N; an update for an
address with no session is a no-op. -/
theorem C4_session_ledger (addr : String) (uuid : Nat)
    (l : List (String × ProviderSession)) :
    (l.lookup addr = none →
       get_or_create_session l addr uuid =
         (⟨uuid % 2 ^ 32, 0, 1⟩, (addr, (⟨uuid % 2 ^ 32, 0, 1⟩ : ProviderSession)) :: l))
    ∧ (∀ s, l.lookup addr = some s → get_or_create_session l addr uuid = (s, l))
    ∧ (∀ n : Nat, l.lookup addr = none → 10 * n + 1 < 2 ^ 64 →
        (updateN (get_or_create_session l addr uuid).2 addr n).lookup addr =
          some ⟨uuid % 2 ^ 32, 10 * n, 1 + n⟩)
    ∧ (l.lookup addr = none → update_session l addr = l) := by
  refine ⟨?_, ?_, ?_, update_session_of_no_entry l addr⟩
  · intro h; simp [get_or_create_session, h]
  · intro s h; simp [get_or_create_session, h]
  · intro n h hbound
    have h2 : (get_or_create_session l addr uuid).2 =
        (addr, (⟨uuid % 2 ^ 32, 0, 1⟩ : ProviderSession)) :: l := by
      simp [get_or_create_session, h]
    have hlook : ((addr, (⟨uuid % 2 ^ 32, 0, 1⟩ : ProviderSession)) :: l).lookup addr =
        some ⟨uuid % 2 ^ 32, 0, 1⟩ := by simp [List.lookup_cons]
    rw [h2, updateN_lookup _ _ _ hlook (by decide : (0 : Nat) < 2 ^ 64)
      (by decide : (1 : Nat) < 2 ^ 64) n]
    congr 1
    simp only [ProviderSession.mk.injEq]
    refine ⟨trivial, ?_, ?_⟩ <;> omega

/-- Witness for C4: address with no session, uuid above 2^32 (truncated),
three updates. -/
theorem C4_witness :
    get_or_create_session [] "X" (2 ^ 33 + 5) =
      (⟨5, 0, 1⟩, [("X", (⟨5, 0, 1⟩ : ProviderSession))])
    ∧ (updateN (get_or_create_session [] "X" (2 ^ 33 + 5)).2 "X" 3).lookup "X" =
        some ⟨5, 30, 4⟩
    ∧ update_session [] "X" = [] := by
  refine ⟨?_, ?_, (C4_session_ledger "X" (2 ^ 33 + 5) []).2.2.2 rfl⟩
  · have h := (C4_session_ledger "X" (2 ^ 33 + 5) []).1 rfl
    simpa using h
  · have h := (C4_session_ledger "X" (2 ^ 33 + 5) []).2.2.1 3 rfl (by decide)
    simpa using h

/-! ## C7 helpers -/

theorem mergeSort_pair {α : Type} (le : α → α → Bool) (x y : α)
    (htrans : ∀ a b c : α, le a b = true → le b c = true → le a c = true)
    (htotal : ∀ a b : α, (le a b || le b a) = true)
    (h : le x y = true) :
    [x, y].mergeSort le = [x, y] := by
  obtain ⟨l₁, l₂, h1, h2, h3⟩ := List.mergeSort_cons htrans htotal x [y]
  rw [List.mergeSort_singleton] at h2
  cases l₁ with
  | nil =>
    simp only [List.nil_append] at h1 h2
    rw [h1, ← h2]
  | cons a l₁' =>
    obtain ⟨hy, -⟩ : y = a ∧ ([] : List α) = l₁' ++ l₂ := by simpa using h2
    have hcon := h3 a (List.mem_cons_self a l₁')
    rw [← hy] at hcon
    simp [h] at hcon

/-! ## C7 -/

/-- C7: the ranking consists of exactly the successful probe outcomes, sorted
ascending by measured latency; failed probes are excluded; if every probe
fails the ranking is the empty list (an ordinary value, not an error); and on
the spec example latencies 50(fail)/10(ok)/30(ok) the result is exactly the
two survivors in order 10, 30. -/
theorem C7_probe_ranking (probe : Provider → String → Nat × Bool)
    (providers : List Provider) :
    (probe_and_rank_providers probe providers).Perm (successfulProbes probe providers)
    ∧ List.Pairwise (fun a b : RankedProvider => a.latency ≤ b.latency)
        (probe_and_rank_providers probe providers)
    ∧ ((∀ p ∈ providers, ∀ e, (probe p e).2 = false) →
        probe_and_rank_providers probe providers = [])
    ∧ probe_and_rank_providers probeC7 [pA, pB, pC] = [rpB, rpC] := by
  have htrans : ∀ a b c : RankedProvider,
      (decide (a.latency ≤ b.latency)) = true → (decide (b.latency ≤ c.latency)) = true →
      (decide (a.latency ≤ c.latency)) = true := by
    intro a b c hab hbc
    simp only [decide_eq_true_eq] at hab hbc ⊢
    omega
  have htotal : ∀ a b : RankedProvider,
      ((decide (a.latency ≤ b.latency)) || (decide (b.latency ≤ a.latency))) = true := by
    intro a b
    simpa using Nat.le_total a.latency b.latency
  refine ⟨List.mergeSort_perm _ _, ?_, ?_, ?_⟩
  · exact (List.sorted_mergeSort htrans htotal _).imp (fun h => of_decide_eq_true h)
  · intro hfail
    have hnil : successfulProbes probe providers = [] := by
      refine List.filterMap_eq_nil_iff.mpr (fun p hp => ?_)
      cases hh : p.endpoints.head? with
      | none => simp [hh]
      | some e => simp [hh, hfail p hp e]
    simp [probe_and_rank_providers, hnil]
  · have hsucc : successfulProbes probeC7 [pA, pB, pC] = [rpB, rpC] := by decide
    show (successfulProbes probeC7 [pA, pB, pC]).mergeSort _ = _
    rw [hsucc]
    exact mergeSort_pair _ rpB rpC htrans htotal (by decide)

/-- Witness for C7: under the all-fail oracle the ranking is empty; the spec
example yields the two survivors in latency order. -/
theorem C7_witness :
    probe_and_rank_providers probeAllFail [pA, pB, pC] = []
    ∧ probe_and_rank_providers probeC7 [pA, pB, pC] = [rpB, rpC] :=
  ⟨(C7_probe_ranking probeAllFail [pA, pB, pC]).2.2.1 (fun _ _ _ => rfl),
   (C7_probe_ranking probeC7 [pA, pB, pC]).2.2.2⟩

/-! ## C9 helpers -/

theorem cyclesOf_cons_clamp (tr : List RefreshAction) :
    cyclesOf (RefreshAction.clamp :: tr) = cyclesOf tr := rfl

theorem cyclesOf_cons_publish (c : RefreshCycle) (tr : List RefreshAction) :
    cyclesOf (RefreshAction.publish c :: tr) = c :: cyclesOf tr := rfl

/-! ## C9 -/

/-- C9 counterexample: after one published refresh, the clamp of the next
refresh attempt (a separate lock acquisition that resets the retry interval
to 1s before the network fetch) leaves a state whose params equal neither the
initial params nor any published cycle's params, so a reader's snapshot is
not entirely from one refresh. -/
theorem C9_counterexample :
    ¬ snapshotFromSingleRefresh initC9 (runRefreshTrace initC9 traceC9) traceC9 := by
  simp only [snapshotFromSingleRefresh]
  decide

/-- C9 amended: a reader always observes providers, ranked providers and
timestamp from one same refresh (or the initial state), with params from that
same refresh except that the time_left_to_next_pairing field may have been
clamped to the 1-second retry value by an in-progress refresh; the four-field
publish itself happens under one lock acquisition. -/
theorem C9_snapshot_atomic_up_to_clamp (init : SDKPairingState) (tr : List RefreshAction) :
    ∃ base ∈ init :: (cyclesOf tr).map stateOfCycle,
      (runRefreshTrace init tr).providers = base.providers
      ∧ (runRefreshTrace init tr).ranked_providers = base.ranked_providers
      ∧ (runRefreshTrace init tr).last_updated = base.last_updated
      ∧ ((runRefreshTrace init tr).params = base.params
         ∨ (runRefreshTrace init tr).params =
             { base.params with time_left_to_next_pairing := 1 }) := by
  induction tr generalizing init with
  | nil => exact ⟨init, by simp, rfl, rfl, rfl, Or.inl rfl⟩
  | cons a tr ih =>
    have hrun : runRefreshTrace init (a :: tr) = runRefreshTrace (refreshStep init a) tr := rfl
    obtain ⟨base, hmem, hp, hrk, hts, hpar⟩ := ih (refreshStep init a)
    rcases List.mem_cons.mp hmem with hbase | hbase
    · cases a with
      | clamp =>
        refine ⟨init, List.mem_cons_self _ _, ?_, ?_, ?_, Or.inr ?_⟩
        · rw [hrun, hp, hbase]; rfl
        · rw [hrun, hrk, hbase]; rfl
        · rw [hrun, hts, hbase]; rfl
        · rcases hpar with hpar | hpar
          · rw [hrun, hpar, hbase]; rfl
          · rw [hrun, hpar, hbase]; rfl
      | publish c =>
        refine ⟨stateOfCycle c, ?_, ?_, ?_, ?_, ?_⟩
        · rw [cyclesOf_cons_publish]
          exact List.mem_cons_of_mem _ (by simp)
        · rw [hrun, hp, hbase]; rfl
        · rw [hrun, hrk, hbase]; rfl
        · rw [hrun, hts, hbase]; rfl
        · rcases hpar with hpar | hpar
          · exact Or.inl (by rw [hrun, hpar, hbase]; rfl)
          · exact Or.inr (by rw [hrun, hpar, hbase]; rfl)
    · refine ⟨base, ?_, hrun ▸ hp, hrun ▸ hrk, hrun ▸ hts, hrun ▸ hpar⟩
      cases a with
      | clamp =>
        rw [cyclesOf_cons_clamp]
        exact List.mem_cons_of_mem _ hbase
      | publish c =>
        rw [cyclesOf_cons_publish]
        exact List.mem_cons_of_mem _ (List.mem_cons_of_mem _ (by simpa using hbase))

/-! ## C5/C10 helpers -/

theorem get_top_provider_cached (ctx : ConsumerSessionContext) (st : SDKPairingState)
    (rp : RankedProvider) (rest : List RankedProvider)
    (hcache : ctx.ranked_providers = rp :: rest) :
    get_top_provider ctx st = (some rp, ctx) := by
  simp [get_top_provider, hcache]

/-- One dispatch under a non-empty cached ranking: the selected provider is
the cached head, the context mutation is exactly the session create+update
for its address, and the envelope is built from the pre-update session. -/
theorem handle_query_cached (ecdsaSign : List Nat → List Nat → List Nat × Nat)
    (ctx : ConsumerSessionContext) (st : SDKPairingState) (payload : List Nat)
    (uuid : Nat) (reply : List Nat) (rp : RankedProvider) (rest : List RankedProvider)
    (hcache : ctx.ranked_providers = rp :: rest) :
    (handle_query ecdsaSign ctx st payload uuid true (some reply)).ctx =
      { ctx with sessions := (update_session
          (get_or_create_session ctx.sessions rp.provider.address uuid).2
          rp.provider.address) }
    ∧ ∃ rs, (handle_query ecdsaSign ctx st payload uuid true (some reply)).sentSession = some rs
        ∧ rs.relay_num = (get_or_create_session ctx.sessions rp.provider.address uuid).1.relay_num
        ∧ rs.cu_sum = (get_or_create_session ctx.sessions rp.provider.address uuid).1.cu_sum
        ∧ rs.epoch = st.params.current_epoch
        ∧ rs.provider = rp.provider.address := by
  have htop := get_top_provider_cached ctx st rp rest hcache
  simp only [handle_query, htop]
  exact ⟨rfl, ⟨_, rfl, rfl, rfl, rfl, rfl⟩⟩

/-! ## C5 -/

/-- C5 counterexample: with a non-empty cached ranking in the session context
but an empty ranking in the shared pairing state, dispatch succeeds and
contacts the provider network, so an empty shared ranking does not make the
request fail, and the top provider was not read from the shared state. -/
theorem C5_counterexample :
    stC5.ranked_providers = []
    ∧ (handle_query signOracle ctxC5 stC5 [1] 0 true (some [2])).result = Except.ok [2]
    ∧ (handle_query signOracle ctxC5 stC5 [1] 0 true (some [2])).events =
        [NetEvent.getClient "B", NetEvent.relay "B"] :=
  ⟨rfl, rfl, rfl⟩

/-- C5 amended: dispatch reads the current epoch from the shared pairing
state; the top provider is taken from the context's cached ranking, which is
filled from the shared pairing state only when the cache is empty; when the
cached ranking and the shared ranking are both empty the request fails with
the internal-error status without any network contact. -/
theorem C5_dispatch_provider_selection (ecdsaSign : List Nat → List Nat → List Nat × Nat)
    (ctx : ConsumerSessionContext) (st : SDKPairingState) (payload : List Nat)
    (uuid : Nat) (gok : Bool) (reply : Option (List Nat)) :
    (ctx.ranked_providers = [] → st.ranked_providers = [] →
       (handle_query ecdsaSign ctx st payload uuid gok reply).result =
           Except.error INTERNAL_SERVER_ERROR
       ∧ (handle_query ecdsaSign ctx st payload uuid gok reply).events = []
       ∧ (handle_query ecdsaSign ctx st payload uuid gok reply).sentSession = none)
    ∧ (ctx.ranked_providers = [] →
        (get_top_provider ctx st).1 = st.ranked_providers.head?)
    ∧ (∀ rp rest, ctx.ranked_providers = rp :: rest →
        (get_top_provider ctx st).1 = some rp)
    ∧ (∀ rp rest, ctx.ranked_providers = rp :: rest → ∀ r : List Nat,
        ∃ rs, (handle_query ecdsaSign ctx st payload uuid true (some r)).sentSession = some rs
          ∧ rs.epoch = st.params.current_epoch
          ∧ rs.provider = rp.provider.address) := by
  refine ⟨?_, ?_, ?_, ?_⟩
  · intro hc he
    have htop : get_top_provider ctx st = (none, ctx) := by
      simp [get_top_provider, hc, he]
    simp [handle_query, htop]
  · intro hc
    cases hse : st.ranked_providers with
    | nil => simp [get_top_provider, hc, hse]
    | cons q qs => simp [get_top_provider, hc, hse]
  · intro rp rest h
    rw [get_top_provider_cached ctx st rp rest h]
  · intro rp rest h r
    obtain ⟨-, rs, hsent, -, -, hep, hprov⟩ :=
      handle_query_cached ecdsaSign ctx st payload uuid r rp rest h
    exact ⟨rs, hsent, hep, hprov⟩

/-- Witness for C5 (amended): empty cache and empty shared ranking fail with
no network contact; a cached head is selected; with an empty cache the
selection follows the shared ranking; a dispatched envelope carries the
shared state's epoch and the selected provider's address. -/
theorem C5_witness :
    ((handle_query signOracle ctxEmpty stC5 [1] 0 true (some [2])).result =
        Except.error INTERNAL_SERVER_ERROR
      ∧ (handle_query signOracle ctxEmpty stC5 [1] 0 true (some [2])).events = []
      ∧ (handle_query signOracle ctxEmpty stC5 [1] 0 true (some [2])).sentSession = none)
    ∧ (get_top_provider ctxEmpty stC10).1 = stC10.ranked_providers.head?
    ∧ (get_top_provider ctxC5 stC10).1 = some rpB
    ∧ (∃ rs, (handle_query signOracle ctxC5 stC10 [1] 0 true (some [2])).sentSession = some rs
        ∧ rs.epoch = stC10.params.current_epoch
        ∧ rs.provider = rpB.provider.address) :=
  ⟨(C5_dispatch_provider_selection signOracle ctxEmpty stC5 [1] 0 true (some [2])).1 rfl rfl,
   (C5_dispatch_provider_selection signOracle ctxEmpty stC10 [1] 0 true (some [2])).2.1 rfl,
   (C5_dispatch_provider_selection signOracle ctxC5 stC10 [1] 0 true (some [2])).2.2.1 rpB [] rfl,
   (C5_dispatch_provider_selection signOracle ctxC5 stC10 [1] 0 true (some [2])).2.2.2 rpB [] rfl [2]⟩

theorem dispatchIter_invariant (ecdsaSign : List Nat → List Nat → List Nat × Nat)
    (st : SDKPairingState) (payload : List Nat) (uuid : Nat) (reply : List Nat)
    (rp : RankedProvider) (rest : List RankedProvider) (ctx0 : ConsumerSessionContext)
    (hcache : ctx0.ranked_providers = rp :: rest)
    (hlook : ctx0.sessions.lookup rp.provider.address = none) :
    ∀ k : Nat,
      (dispatchIter ecdsaSign st payload uuid reply k ctx0).ranked_providers = rp :: rest
      ∧ (dispatchIter ecdsaSign st payload uuid reply k ctx0).sessions.lookup
          rp.provider.address =
          (if k = 0 then none
           else some ⟨uuid % 2 ^ 32, (10 * k) % 2 ^ 64, (1 + k) % 2 ^ 64⟩) := by
  intro k
  induction k with
  | zero => exact ⟨hcache, by simpa [dispatchIter] using hlook⟩
  | succ k ih =>
    obtain ⟨ihc, ihl⟩ := ih
    have hc := (handle_query_cached ecdsaSign (dispatchIter ecdsaSign st payload uuid reply k ctx0)
      st payload uuid reply rp rest ihc).1
    constructor
    · show (handle_query ecdsaSign (dispatchIter ecdsaSign st payload uuid reply k ctx0) st payload
        uuid true (some reply)).ctx.ranked_providers = rp :: rest
      rw [hc]
      exact ihc
    · show (handle_query ecdsaSign (dispatchIter ecdsaSign st payload uuid reply k ctx0) st payload
        uuid true (some reply)).ctx.sessions.lookup rp.provider.address = _
      rw [hc]
      by_cases hk : k = 0
      · subst hk
        simp only [if_pos rfl] at ihl
        have hsoc : (get_or_create_session
            (dispatchIter ecdsaSign st payload uuid reply 0 ctx0).sessions
            rp.provider.address uuid).2 =
            (rp.provider.address, (⟨uuid % 2 ^ 32, 0, 1⟩ : ProviderSession)) ::
              (dispatchIter ecdsaSign st payload uuid reply 0 ctx0).sessions := by
          simp [get_or_create_session, ihl]
        rw [hsoc, lookup_update_session]
        simp [List.lookup_cons]
      · simp only [if_neg hk] at ihl
        have hsoc : (get_or_create_session
            (dispatchIter ecdsaSign st payload uuid reply k ctx0).sessions
            rp.provider.address uuid).2 =
            (dispatchIter ecdsaSign st payload uuid reply k ctx0).sessions := by
          simp [get_or_create_session, ihl]
        rw [hsoc, lookup_update_session, ihl]
        simp only [Option.map_some', if_neg (Nat.succ_ne_zero k)]
        congr 1
        simp only [ProviderSession.mk.injEq]
        refine ⟨trivial, ?_, ?_⟩ <;> omega

/-! ## C10 -/

/-- C10: with a cached top provider and no prior session for it, the envelope
sent on the (k+1)-th dispatch to that provider carries the session counters
captured before the update of that dispatch: relay_num = k + 1 and
cu_sum = 10k; in particular the first envelope carries cu_sum = 0 and its
canonical serialization emits no cu_sum segment. -/
theorem C10_envelope_pre_update_counters (ecdsaSign : List Nat → List Nat → List Nat × Nat)
    (st : SDKPairingState) (payload : List Nat) (uuid : Nat) (reply : List Nat)
    (rp : RankedProvider) (rest : List RankedProvider) (ctx0 : ConsumerSessionContext)
    (hcache : ctx0.ranked_providers = rp :: rest)
    (hlook : ctx0.sessions.lookup rp.provider.address = none) :
    ∀ k : Nat, 10 * k + 10 < 2 ^ 64 →
      ∃ rs, (handle_query ecdsaSign (dispatchIter ecdsaSign st payload uuid reply k ctx0) st
          payload uuid true (some reply)).sentSession = some rs
        ∧ rs.relay_num = k + 1
        ∧ rs.cu_sum = 10 * k
        ∧ rs.provider = rp.provider.address
        ∧ (k = 0 → "cu_sum" ∉ (emittedSegments rs).map Prod.fst) := by
  intro k hbound
  obtain ⟨ihc, ihl⟩ :=
    dispatchIter_invariant ecdsaSign st payload uuid reply rp rest ctx0 hcache hlook k
  obtain ⟨-, rs, hsent, hrel, hcu, -, hprov⟩ :=
    handle_query_cached ecdsaSign (dispatchIter ecdsaSign st payload uuid reply k ctx0)
      st payload uuid reply rp rest ihc
  by_cases hk : k = 0
  · subst hk
    simp only [if_pos rfl] at ihl
    have hsoc : (get_or_create_session
        (dispatchIter ecdsaSign st payload uuid reply 0 ctx0).sessions
        rp.provider.address uuid).1 = ⟨uuid % 2 ^ 32, 0, 1⟩ := by
      simp [get_or_create_session, ihl]
    have hcu0 : rs.cu_sum = 0 := by rw [hcu, hsoc]
    refine ⟨rs, hsent, ?_, ?_, hprov, fun _ => cu_sum_zero_not_emitted rs hcu0⟩
    · rw [hrel, hsoc]
    · rw [hcu0]
  · simp only [if_neg hk] at ihl
    have hsoc : (get_or_create_session
        (dispatchIter ecdsaSign st payload uuid reply k ctx0).sessions
        rp.provider.address uuid).1 = ⟨uuid % 2 ^ 32, (10 * k) % 2 ^ 64, (1 + k) % 2 ^ 64⟩ := by
      simp [get_or_create_session, ihl]
    refine ⟨rs, hsent, ?_, ?_, hprov, fun h => absurd h hk⟩
    · rw [hrel, hsoc]
      show (1 + k) % 2 ^ 64 = k + 1
      omega
    · rw [hcu, hsoc]
      show (10 * k) % 2 ^ 64 = 10 * k
      omega

/-- Witness for C10 at the first and the third dispatch to the cached
provider. -/
theorem C10_witness :
    (∃ rs, (handle_query signOracle (dispatchIter signOracle stC10 [1] 0 [2] 0 ctxC5) stC10
        [1] 0 true (some [2])).sentSession = some rs
      ∧ rs.relay_num = 0 + 1
      ∧ rs.cu_sum = 10 * 0
      ∧ rs.provider = rpB.provider.address
      ∧ (0 = 0 → "cu_sum" ∉ (emittedSegments rs).map Prod.fst))
    ∧ (∃ rs, (handle_query signOracle (dispatchIter signOracle stC10 [1] 0 [2] 2 ctxC5) stC10
        [1] 0 true (some [2])).sentSession = some rs
      ∧ rs.relay_num = 2 + 1
      ∧ rs.cu_sum = 10 * 2
      ∧ rs.provider = rpB.provider.address
      ∧ (2 = 0 → "cu_sum" ∉ (emittedSegments rs).map Prod.fst)) :=
  ⟨C10_envelope_pre_update_counters signOracle stC10 [1] 0 [2] rpB [] ctxC5 rfl rfl 0 (by decide),
   C10_envelope_pre_update_counters signOracle stC10 [1] 0 [2] rpB [] ctxC5 rfl rfl 2 (by decide)⟩

/-! ## C8 helpers -/

theorem string_foldl_append (l : List String) (a : String) :
    List.foldl (fun r s => r ++ s) a l = a ++ List.foldl (fun r s => r ++ s) "" l := by
  induction l generalizing a with
  | nil => simp
  | cons x xs ih =>
    simp only [List.foldl_cons]
    rw [ih (a ++ x), ih ("" ++ x)]
    simp [String.append_assoc]

theorem stringJoin_cons (a : String) (l : List String) :
    String.join (a :: l) = a ++ String.join l := by
  simp only [String.join, List.foldl_cons]
  rw [string_foldl_append l ("" ++ a)]
  simp

theorem stringJoin_append (l₁ l₂ : List String) :
    String.join (l₁ ++ l₂) = String.join l₁ ++ String.join l₂ := by
  induction l₁ with
  | nil => simp [String.join]
  | cons x xs ih => simp [stringJoin_cons, ih, String.append_assoc]

/-! ## C8 -/

set_option maxRecDepth 8192 in
/-- C8: with double-quote escaping disabled (as at the content_hash call
site), the byte-field rendering maps each byte independently; 0x09, 0x0a,
0x0d and 0x5c render as the two-character escapes; printable ASCII
0x20–0x7e renders as the literal character; every other byte renders as a
backslash followed by its 3-digit octal value. -/
theorem C8_byte_escaping :
    (∀ xs ys : List Nat, byte_array_to_string (xs ++ ys) false =
        byte_array_to_string xs false ++ byte_array_to_string ys false)
    ∧ (∀ b : List Nat, byte_array_to_string b false =
        String.join (b.map (fun x => byte_array_to_string [x] false)))
    ∧ byte_array_to_string [0x09] false = "\\t"
    ∧ byte_array_to_string [0x0a] false = "\\n"
    ∧ byte_array_to_string [0x0d] false = "\\r"
    ∧ byte_array_to_string [0x5c] false = "\\\\"
    ∧ (∀ x : Nat, x < 256 → 0x20 ≤ x → x ≤ 0x7e → x ≠ 0x5c →
        byte_array_to_string [x] false = String.singleton (Char.ofNat x))
    ∧ (∀ x : Nat, x < 256 → ¬(x = 0x09 ∨ x = 0x0a ∨ x = 0x0d ∨ x = 0x5c) →
        ¬(0x20 ≤ x ∧ x ≤ 0x7e) →
        byte_array_to_string [x] false = "\\" ++ octal3 x)
    ∧ (∀ x : Nat, x < 256 →
        (octal3 x).length = 3 ∧ 64 * (x / 64) + 8 * (x / 8 % 8) + x % 8 = x)
    ∧ (∀ (k : String) (bts : List Nat), serialize_key_value k (Value.Bytes bts) =
        k ++ ":\"" ++ byte_array_to_string bts false ++ "\" ") := by
  refine ⟨?_, ?_, rfl, rfl, rfl, rfl, ?_, ?_, ?_, fun k bts => rfl⟩
  · intro xs ys
    simp only [byte_array_to_string, List.map_append, stringJoin_append]
  · intro b
    induction b with
    | nil => rfl
    | cons x xs ih =>
      simp only [List.map_cons]
      rw [stringJoin_cons, ← ih]
      simp only [byte_array_to_string, List.map_cons, stringJoin_cons]
      congr 1
      simp [String.join]
  · decide
  · decide
  · decide

/-- Witness for C8 at concrete bytes: a split list, tab, a printable byte,
the byte 7 as octal, and the content_hash call-site shape. -/
theorem C8_witness :
    byte_array_to_string ([9] ++ [65]) false =
        byte_array_to_string [9] false ++ byte_array_to_string [65] false
    ∧ byte_array_to_string [0x09] false = "\\t"
    ∧ byte_array_to_string [65] false = String.singleton (Char.ofNat 65)
    ∧ byte_array_to_string [7] false = "\\" ++ octal3 7
    ∧ (octal3 255).length = 3
    ∧ serialize_key_value "content_hash" (Value.Bytes [0]) =
        "content_hash" ++ ":\"" ++ byte_array_to_string [0] false ++ "\" " :=
  ⟨C8_byte_escaping.1 [9] [65],
   C8_byte_escaping.2.2.1,
   C8_byte_escaping.2.2.2.2.2.2.1 65 (by decide) (by decide) (by decide) (by decide),
   C8_byte_escaping.2.2.2.2.2.2.2.1 7 (by decide) (by decide) (by decide),
   (C8_byte_escaping.2.2.2.2.2.2.2.2.1 255 (by decide)).1,
   C8_byte_escaping.2.2.2.2.2.2.2.2.2 "content_hash" [0]⟩
